import Mathlib

/-!
Verification of the position-normalization and PnL-calculation pipeline of a
Solana perpetuals position reporter.  The definitions below are a shallow
embedding of the TypeScript source: BN (arbitrary-precision integer) values
become Int, JavaScript numbers used for display-format arithmetic become ℚ
(the source only adds, negates and divides descaled values, which ℚ models
exactly), and awaited external calls (HTTP fetch, RPC, account decode) become
explicit parameters describing the outcome of the call.
-/

namespace SolanaPerp

/-- Direction strings LONG / SHORT / NONE returned by the side classifier
(the source type is the string union "LONG" | "SHORT" | "NONE"; the lowercase
strings "long" | "short" | "none" passed to the PnL calculator are the same
three values, so one inductive type models both spellings). -/
inductive Direction
  | LONG
  | SHORT
  | NONE
  deriving DecidableEq

/-- JupiterSide from src/types/jupiter.ts: in the source it is a record with
one of the optional keys long / short / none present.  Malformed encodings can
carry any combination of keys, so the embedding records the presence of each
key as a flag; the helpers below probe the flags exactly as the source probes
the keys with the in operator. -/
structure JupiterSide where
  hasLong : Bool
  hasShort : Bool
  hasNone : Bool
  deriving DecidableEq

/-- JupiterSideHelpers.toString from src/types/jupiter.ts: checks the key
long first, then short, and returns NONE otherwise. -/
def JupiterSideHelpers.toString (side : JupiterSide) : Direction :=
  if side.hasLong then Direction.LONG
  else if side.hasShort then Direction.SHORT
  else Direction.NONE

/-- JupiterPositionAccount from src/types/jupiter.ts.  PublicKey fields are
modelled as the base58 strings the source compares them through; BN fields
are Int. -/
structure JupiterPositionAccount where
  owner : String
  pool : String
  custody : String
  collateralCustody : String
  openTime : Int
  updateTime : Int
  side : JupiterSide
  price : Int
  sizeUsd : Int
  collateralUsd : Int
  realisedPnlUsd : Int
  cumulativeInterestSnapshot : Int
  lockedAmount : Int
  bump : Nat
  deriving DecidableEq

/-- calculatePositionPnl from the two pipeline files (identical in both).
BN.mul and BN.div are exact integer multiply and truncated (toward zero)
integer division, i.e. Int.tdiv.  The positionSide parameter is the lowercased
direction string; the source compares it against "long", which only a LONG
value matches (a NONE value cast unsoundly by the caller falls into the else
branch exactly as the string "none" does in the source ternary). -/
def calculatePositionPnl (sizeUsdDelta positionAvgPrice : Int)
    (positionSide : Direction) (currentPrice : Int) : Bool × Int :=
  if sizeUsdDelta = 0 then (false, 0)
  else
    let hasProfit : Bool :=
      if positionSide = Direction.LONG then decide (positionAvgPrice < currentPrice)
      else decide (currentPrice < positionAvgPrice)
    let priceDelta : Int := |currentPrice - positionAvgPrice|
    let pnlAmount : Int := Int.tdiv (sizeUsdDelta * priceDelta) positionAvgPrice
    (hasProfit, pnlAmount)

/-- Result record of a price fetch (PriceFetchResult in both pipeline files):
a success flag, a BN price at 6 decimals, and the echoed symbol. -/
structure PriceFetchResult where
  success : Bool
  price : Int
  symbol : String
  deriving DecidableEq

/-- A price fetch together with instrumentation recording whether control
flow reached the HTTP fetch call (used to state the no-network-call claim). -/
structure PriceFetchOutcome where
  result : PriceFetchResult
  networkCalled : Bool
  deriving DecidableEq

/-- USDC_DECIMALS from src/constants/jupiter.ts. -/
def USDC_DECIMALS : Nat := 6

/-- USD_PRECISION from src/constants/jupiter.ts (1e6, used to descale USD
fixed-point integers into display numbers). -/
def USD_PRECISION : ℚ := 1000000

namespace JupiterApi

/-- TOKEN_MINTS table of the Jupiter-Quote-API pipeline file: mint address by
symbol, absent for unsupported symbols. -/
def TOKEN_MINTS (symbol : String) : Option String :=
  if symbol = "SOL" then some "So11111111111111111111111111111111111111112"
  else if symbol = "BTC" then some "3NZ9JMVBmGAqocybic2c7LQCJScmgsAZ6vQqTDzcqmJh"
  else if symbol = "ETH" then some "7vfCXTUXx5WJV5JADk17DUJ4ksgau7utNKj4b963voxs"
  else if symbol = "USDC" then some "EPjFWdd5AufqSSqeM2qN1xzybapC8G4wEGGkZwyTDt1v"
  else if symbol = "USDT" then some "Es9vMFrzaCERmJfrF4H2FYD4KCoNkY11McCe8BenwNYB"
  else none

/-- TOKEN_DECIMALS table of the Jupiter-Quote-API pipeline file.  Same key
set as TOKEN_MINTS, so every symbol with a mint also has decimals. -/
def TOKEN_DECIMALS (symbol : String) : Option Nat :=
  if symbol = "SOL" then some 9
  else if symbol = "BTC" then some 8
  else if symbol = "ETH" then some 8
  else if symbol = "USDC" then some 6
  else if symbol = "USDT" then some 6
  else none

/-- Outcome of the single HTTP fetch against the Jupiter Quote API: either
the await throws, or a response arrives with an ok-status flag and the parsed
inAmount / outAmount fields.  The amount fields are integer strings in the
JSON; a present field is a nonempty canonical numeric string (including "0"),
which is truthy in the JavaScript presence checks, so presence is modelled as
some of the numeric value and absence as none. -/
inductive QuoteNet
  | throws
  | response (ok : Bool) (inAmount outAmount : Option Int)
  deriving DecidableEq

/-- fetchCurrentPrice of the Jupiter-Quote-API pipeline file.  Looks up the
mint, short-circuits USDC to a constant before any network access, otherwise
performs the quote request and derives the price as
outAmount * 10^tokenDecimals / inAmount with truncated BN division.  The
TOKEN_DECIMALS lookup uses getD 0; the default is unreachable because the
lookup is guarded by the TOKEN_MINTS match on the same key set. -/
def fetchCurrentPrice (symbol : String) (net : QuoteNet) : PriceFetchOutcome :=
  match TOKEN_MINTS symbol with
  | none => ⟨⟨false, 0, symbol⟩, false⟩
  | some _ =>
    if symbol = "USDC" then
      ⟨⟨true, (1 * 10 ^ USDC_DECIMALS : Nat), symbol⟩, false⟩
    else
      let tokenDecimals := (TOKEN_DECIMALS symbol).getD 0
      match net with
      | QuoteNet.throws => ⟨⟨false, 0, symbol⟩, true⟩
      | QuoteNet.response ok inAmount? outAmount? =>
        if ok = false then ⟨⟨false, 0, symbol⟩, true⟩
        else
          match outAmount?, inAmount? with
          | none, _ => ⟨⟨false, 0, symbol⟩, true⟩
          | some _, none => ⟨⟨false, 0, symbol⟩, true⟩
          | some outAmount, some inAmount =>
            if inAmount = 0 then ⟨⟨false, 0, symbol⟩, true⟩
            else
              let priceNumerator := outAmount * (10 ^ tokenDecimals : Nat)
              let priceBN := Int.tdiv priceNumerator inAmount
              ⟨⟨true, priceBN, symbol⟩, true⟩

end JupiterApi

namespace CoinGeckoApi

/-- COINGECKO_COIN_IDS table of the CoinGecko pipeline file. -/
def COINGECKO_COIN_IDS (symbol : String) : Option String :=
  if symbol = "SOL" then some "solana"
  else if symbol = "BTC" then some "bitcoin"
  else if symbol = "ETH" then some "ethereum"
  else if symbol = "USDC" then some "usd-coin"
  else if symbol = "USDT" then some "tether"
  else none

/-- Outcome of the single HTTP fetch against the CoinGecko simple-price
endpoint: either the await throws, or a response arrives with an ok-status
flag and the optional usd number for the requested coin id. -/
inductive GeckoNet
  | throws
  | response (ok : Bool) (usd : Option ℚ)
  deriving DecidableEq

/-- Math.round on a nonnegative JavaScript number: round half toward
positive infinity, i.e. the floor of the value plus one half. -/
def mathRound (q : ℚ) : Int := ⌊q + 1 / 2⌋

/-- fetchCurrentPrice of the CoinGecko pipeline file.  Looks up the coin id
(also for USDC, which therefore takes the network path), fetches the usd
quote, rejects missing / zero / non-positive quotes, and converts the decimal
quote to 6-decimal fixed point with Math.round.  The check on the quote is
the source condition (not usd) or usd less-or-equal zero, which collapses to
usd less-or-equal zero for a present number. -/
def fetchCurrentPrice (symbol : String) (net : GeckoNet) : PriceFetchOutcome :=
  match COINGECKO_COIN_IDS symbol with
  | none => ⟨⟨false, 0, symbol⟩, false⟩
  | some _ =>
    match net with
    | GeckoNet.throws => ⟨⟨false, 0, symbol⟩, true⟩
    | GeckoNet.response ok usd? =>
      if ok = false then ⟨⟨false, 0, symbol⟩, true⟩
      else
        match usd? with
        | none => ⟨⟨false, 0, symbol⟩, true⟩
        | some usdPrice =>
          if usdPrice ≤ 0 then ⟨⟨false, 0, symbol⟩, true⟩
          else ⟨⟨true, mathRound (usdPrice * (10 ^ USDC_DECIMALS : Nat)), symbol⟩, true⟩

end CoinGeckoApi

/-- PositionMetrics record of both pipeline files: the display-format values
computed by calculatePositionMetrics. -/
structure PositionMetrics where
  sizeUsd : ℚ
  collateralUsd : ℚ
  entryPrice : ℚ
  baseAmount : ℚ
  markPrice : ℚ
  pnl : ℚ
  leverage : ℚ
  deriving DecidableEq

/-- calculatePositionMetrics from both pipeline files (identical in both).
priceOf stands for the awaited fetchCurrentPrice of the respective file.  The
direction string is lowercased and passed to the PnL calculator; Direction
models both spellings, so it passes through unchanged. -/
def calculatePositionMetrics (position : JupiterPositionAccount) (marketSymbol : String)
    (priceOf : String → PriceFetchResult) : PositionMetrics :=
  let sizeUsd : ℚ := (position.sizeUsd : ℚ) / USD_PRECISION
  let collateralUsd : ℚ := (position.collateralUsd : ℚ) / USD_PRECISION
  let entryPrice : ℚ := (position.price : ℚ) / USD_PRECISION
  let baseAmount : ℚ := if 0 < entryPrice then sizeUsd / entryPrice else 0
  let priceResult := priceOf marketSymbol
  let leverage : ℚ := if 0 < collateralUsd then sizeUsd / collateralUsd else 1
  if priceResult.success && decide (0 < priceResult.price) then
    let markPrice : ℚ := (priceResult.price : ℚ) / ((10 ^ USDC_DECIMALS : Nat) : ℚ)
    let positionSide := JupiterSideHelpers.toString position.side
    let pnlPair := calculatePositionPnl position.sizeUsd position.price positionSide
      priceResult.price
    let pnl : ℚ := (if pnlPair.1 then (pnlPair.2 : ℚ) else -(pnlPair.2 : ℚ)) / USD_PRECISION
    ⟨sizeUsd, collateralUsd, entryPrice, baseAmount, markPrice, pnl, leverage⟩
  else
    let pnl : ℚ := (position.realisedPnlUsd : ℚ) / USD_PRECISION
    ⟨sizeUsd, collateralUsd, entryPrice, baseAmount, entryPrice, pnl, leverage⟩

/-- The shared Position model from src/types/index.ts. -/
structure Position where
  symbol : String
  sizeUsd : ℚ
  baseAmount : ℚ
  direction : Direction
  pnl : ℚ
  entryPrice : ℚ
  markPrice : ℚ
  leverage : ℚ
  protocolMarketId : Option String
  deriving DecidableEq

/-- One entry of the JUPITER_MARKETS table from src/constants/jupiter.ts. -/
structure MarketInfo where
  symbol : String
  custody : String
  marketIndex : Nat
  deriving DecidableEq

/-- JUPITER_MARKETS from src/constants/jupiter.ts: the static market
descriptor table keyed by custody address. -/
def JUPITER_MARKETS : List MarketInfo :=
  [⟨"SOL", "7xS2gz2bTp3fwCC7knJvUWTEU9Tycczu6VhJYKgi1wdz", 0⟩,
   ⟨"BTC", "5Pv3gM9JrFFH883SWAhvJC9RPYmo8UNxuFtv5bMMALkm", 1⟩,
   ⟨"ETH", "AQCGyheWPLeo6Qp9WpYS9m3Qj479t7R636N9ey1rEjEn", 2⟩,
   ⟨"USDC", "G18jKKXQwBbrHeiK3C9MRXhkHsLHf7XgCSisykV46EZa", 3⟩,
   ⟨"USDT", "4vkNeXiYEUizLdrpdPS1eC2mccyM4NUPRtERrk6ZETkk", 4⟩]

/-- Number(x.toFixed(4)) applied to a leverage value: round to 4 decimal
places, picking the larger candidate on ties as ECMAScript toFixed does. -/
def toFixed4 (q : ℚ) : ℚ := ((⌊q * 10 ^ 4 + 1 / 2⌋ : Int) : ℚ) / 10 ^ 4

/-- DecodedPosition record of both pipeline files: a decoded account together
with its public key. -/
structure DecodedPosition where
  publicKey : String
  account : JupiterPositionAccount
  deriving DecidableEq

/-- processJupiterPosition from both pipeline files.  The try/catch around
the body only converts thrown exceptions to null; nothing in the embedded
body throws (BN.toNumber overflow lies outside the modelled value range), so
the catch arm never fires.  priceOf stands for the awaited fetchCurrentPrice
of the respective pipeline file. -/
def processJupiterPosition (priceOf : String → PriceFetchResult)
    (positionData : DecodedPosition) : Option Position :=
  let position := positionData.account
  match JUPITER_MARKETS.find? (fun market => decide (market.custody = position.custody)) with
  | none => none
  | some marketInfo =>
    let direction := JupiterSideHelpers.toString position.side
    if direction = Direction.NONE then none
    else
      let metrics := calculatePositionMetrics position marketInfo.symbol priceOf
      some ⟨marketInfo.symbol, metrics.sizeUsd, metrics.baseAmount, direction, metrics.pnl,
        metrics.entryPrice, metrics.markPrice, toFixed4 metrics.leverage, some position.custody⟩

/-- filterOpenPositions from both pipeline files: keep accounts with strictly
positive sizeUsd and a side other than NONE.  The optional-chaining guard
around gtn always takes the comparison path here because decoded accounts
always carry a sizeUsd BN. -/
def filterOpenPositions (positions : List DecodedPosition) : List DecodedPosition :=
  positions.filter (fun position =>
    decide (0 < position.account.sizeUsd)
      && decide (JupiterSideHelpers.toString position.account.side ≠ Direction.NONE))

/-- A raw program account as returned by getProgramAccounts: the account
public key and the opaque byte payload handed to the external decoder. -/
structure RawAccountInfo where
  pubkey : String
  data : List Nat
  deriving DecidableEq

/-- decodePositionAccounts from both pipeline files: run the external Anchor
decoder over each raw account, keep the successes in input order, and drop
items whose decode throws (with a warning).  The decoder is an external
collaborator and is passed in as a function. -/
def decodePositionAccounts (decode : List Nat → Except String JupiterPositionAccount)
    (rawAccounts : List RawAccountInfo) : List DecodedPosition :=
  rawAccounts.filterMap (fun item =>
    match decode item.data with
    | Except.ok account => some ⟨item.pubkey, account⟩
    | Except.error _ => none)

/-- Model of the all-complete join Promise.all over one task per list entry:
the tasks may complete in any order, given as the list of task indices in
completion order; each completing task stores its result in the slot of its
input index, and the join returns the slots in input order.  Out-of-range
indices and repeated completions change nothing. -/
def runSchedule {α γ : Type} (f : α → γ) (dflt : γ) (xs : List α)
    (order : List Nat) : List γ :=
  order.foldl (fun slots i => slots.set i ((xs[i]?).elim dflt f))
    (List.replicate xs.length dflt)

/-- getJupiterPositions from both pipeline files.  The external account fetch
arrives as an Except (the RPC await may throw); the top-level try/catch turns
any such failure into an empty list.  decode is the external account decoder,
priceOf the price resolver of the respective pipeline file, and order the
completion order of the concurrently processed positions. -/
def getJupiterPositions (decode : List Nat → Except String JupiterPositionAccount)
    (priceOf : String → PriceFetchResult)
    (fetchResult : Except String (List RawAccountInfo)) (order : List Nat) : List Position :=
  match fetchResult with
  | Except.error _ => []
  | Except.ok rawAccounts =>
    if rawAccounts.length = 0 then []
    else
      let decodedPositions := decodePositionAccounts decode rawAccounts
      let openPositions := filterOpenPositions decodedPositions
      if openPositions.length = 0 then []
      else
        let processedPositions :=
          runSchedule (processJupiterPosition priceOf) none openPositions order
        processedPositions.filterMap id

/-- A Drift perpetual position as touched by src/lib/drift.ts (only fields
the surrounding code reads are modelled). -/
structure PerpPosition where
  marketIndex : Nat
  baseAssetAmount : Int
  quoteAssetAmount : Int
  deriving DecidableEq

/-- Combined outcome of the awaited steps of getDriftPositions in
src/lib/drift.ts up to reading the user account: either some step throws, or
the lookup completes with an account-existence flag and the perp position
list. -/
inductive DriftFetchOutcome
  | throws (msg : String)
  | account (userExists : Bool) (perpPositions : List PerpPosition)
  deriving DecidableEq

/-- getDriftPositions from src/lib/drift.ts: a missing account yields an
empty list; otherwise the empty positions are filtered out (isEmptyPosition
is an external SDK predicate); the catch block logs the error and rethrows
it, so a throwing step surfaces as an error to the caller. -/
def getDriftPositions (isEmptyPosition : PerpPosition → Bool)
    (outcome : DriftFetchOutcome) : Except String (List PerpPosition) :=
  match outcome with
  | DriftFetchOutcome.throws msg => Except.error msg
  | DriftFetchOutcome.account userExists positions =>
    if userExists = false then Except.ok []
    else Except.ok (positions.filter (fun pos => !(isEmptyPosition pos)))

/-- Fixture: the SOL custody address string from the market table. -/
def solCustody : String := "7xS2gz2bTp3fwCC7knJvUWTEU9Tycczu6VhJYKgi1wdz"

/-- Fixture: an open LONG SOL position account with entry price 100.00, size
1000.00, collateral 200.00 and realized PnL 42.50 (all at 6 decimals). -/
def solAccount : JupiterPositionAccount :=
  ⟨"ownerPk", "poolPk", solCustody, "collateralPk", 0, 0, ⟨true, false, false⟩,
    100000000, 1000000000, 200000000, 42500000, 0, 0, 255⟩

/-- Fixture: the SOL account with zero size. -/
def zeroSizeAccount : JupiterPositionAccount :=
  { solAccount with sizeUsd := 0 }

/-- Fixture: the SOL account with the none side key set instead of long. -/
def noneSideAccount : JupiterPositionAccount :=
  { solAccount with side := ⟨false, false, true⟩ }

/-- Fixture: a price resolver whose every lookup fails. -/
def failingPriceOf (symbol : String) : PriceFetchResult := ⟨false, 0, symbol⟩

/-- Fixture: an external decoder that decodes every payload to the SOL
account. -/
def constDecode (_data : List Nat) : Except String JupiterPositionAccount :=
  Except.ok solAccount

/-- Fixture: two raw account items. -/
def twoRawAccounts : List RawAccountInfo := [⟨"pk0", [0]⟩, ⟨"pk1", [1]⟩]

/-- Fixture: a single raw account item. -/
def oneRawAccount : List RawAccountInfo := [⟨"pk0", [0]⟩]

/-- Fixture: the normalized position produced from zeroSizeAccount when the
price resolver fails. -/
def zeroSizePositionFallback : Position :=
  ⟨"SOL", 0, 0, Direction.LONG, 85 / 2, 100, 100, 0, some solCustody⟩

/-- Fixture: the normalized position produced from solAccount when the price
resolver fails (realized-PnL fallback, mark price = entry price). -/
def solPositionFallback : Position :=
  ⟨"SOL", 1000, 10, Direction.LONG, 85 / 2, 100, 100, 5, some solCustody⟩

/-- Helper: the floor of a quotient of integer casts is Euclidean integer
division, for a positive denominator. -/
theorem floor_intCast_div_intCast {a b : Int} (hb : 0 < b) :
    ⌊(a : ℚ) / (b : ℚ)⌋ = a / b := by
  have hcast : ((b.toNat : ℕ) : ℚ) = (b : ℚ) := by
    exact_mod_cast congrArg (fun z : Int => (z : ℚ)) (Int.toNat_of_nonneg hb.le)
  have h := Rat.floor_intCast_div_natCast a b.toNat
  rw [hcast, Int.toNat_of_nonneg hb.le] at h
  exact h

/-- Helper: truncated division of a nonnegative integer by a positive one is
the floor of the rational quotient. -/
theorem tdiv_eq_floor {a b : Int} (ha : 0 ≤ a) (hb : 0 < b) :
    Int.tdiv a b = ⌊(a : ℚ) / (b : ℚ)⌋ := by
  rw [floor_intCast_div_intCast hb, Int.tdiv_eq_ediv ha hb.le]

/-- C1: for every position with nonzero fixed-point size and nonzero entry
price, the PnL calculator returns magnitude
sizeUsd * |currentPrice - entryPrice| / entryPrice, computed exactly in
integer arithmetic: multiply the size by the absolute price delta, then
divide (truncating) by the entry price. -/
theorem c1_pnl_magnitude (sizeUsdDelta positionAvgPrice currentPrice : Int)
    (positionSide : Direction)
    (hs : sizeUsdDelta ≠ 0) (he : positionAvgPrice ≠ 0) :
    (calculatePositionPnl sizeUsdDelta positionAvgPrice positionSide currentPrice).2
      = Int.tdiv (sizeUsdDelta * |currentPrice - positionAvgPrice|) positionAvgPrice := by
  simp [calculatePositionPnl, hs]

/-- Witness for c1_pnl_magnitude: the scenario sizeUsd = 1000.00, entry =
100.00, current = 110.00 (all at 6 decimals). -/
theorem c1_pnl_magnitude_witness :
    (1000000000 : Int) ≠ 0 ∧ (100000000 : Int) ≠ 0 ∧
      (calculatePositionPnl 1000000000 100000000 Direction.LONG 110000000).2
        = Int.tdiv (1000000000 * |(110000000 : Int) - 100000000|) 100000000 :=
  ⟨by decide, by decide,
    c1_pnl_magnitude 1000000000 100000000 110000000 Direction.LONG
      (by decide) (by decide)⟩

/-- C3: for every nonzero-size position the calculator reports profit for
LONG exactly when currentPrice is strictly above the entry price, for SHORT
exactly when the entry price is strictly above currentPrice, and reports no
profit for either direction when the prices are equal. -/
theorem c3_profit_direction (sizeUsdDelta positionAvgPrice currentPrice : Int)
    (hs : sizeUsdDelta ≠ 0) :
    ((calculatePositionPnl sizeUsdDelta positionAvgPrice Direction.LONG currentPrice).1 = true
        ↔ positionAvgPrice < currentPrice)
      ∧ ((calculatePositionPnl sizeUsdDelta positionAvgPrice Direction.SHORT currentPrice).1 = true
        ↔ currentPrice < positionAvgPrice)
      ∧ (currentPrice = positionAvgPrice →
          (calculatePositionPnl sizeUsdDelta positionAvgPrice Direction.LONG currentPrice).1 = false
            ∧ (calculatePositionPnl sizeUsdDelta positionAvgPrice Direction.SHORT currentPrice).1
              = false) := by
  refine ⟨?_, ?_, ?_⟩
  · simp [calculatePositionPnl, hs]
  · simp [calculatePositionPnl, hs]
  · intro hEq
    subst hEq
    simp [calculatePositionPnl, hs]

/-- Witness for c3_profit_direction at size 1000.00, entry 100.00, current
110.00. -/
theorem c3_profit_direction_witness :
    (1000000000 : Int) ≠ 0 ∧
      (((calculatePositionPnl 1000000000 100000000 Direction.LONG 110000000).1 = true
          ↔ (100000000 : Int) < 110000000)
        ∧ ((calculatePositionPnl 1000000000 100000000 Direction.SHORT 110000000).1 = true
          ↔ (110000000 : Int) < 100000000)
        ∧ ((110000000 : Int) = 100000000 →
            (calculatePositionPnl 1000000000 100000000 Direction.LONG 110000000).1 = false
              ∧ (calculatePositionPnl 1000000000 100000000 Direction.SHORT 110000000).1
                = false)) :=
  ⟨by decide, c3_profit_direction 1000000000 100000000 110000000 (by decide)⟩

/-- C2: whenever the price resolution fails or returns a non-positive price,
the reported PnL equals the raw account realized-PnL field descaled by 10^6
and the reported mark price equals the (descaled) entry price. -/
theorem c2_price_fallback (position : JupiterPositionAccount) (marketSymbol : String)
    (priceOf : String → PriceFetchResult)
    (h : (priceOf marketSymbol).success = false ∨ (priceOf marketSymbol).price ≤ 0) :
    (calculatePositionMetrics position marketSymbol priceOf).pnl
        = (position.realisedPnlUsd : ℚ) / 10 ^ 6
      ∧ (calculatePositionMetrics position marketSymbol priceOf).markPrice
        = (calculatePositionMetrics position marketSymbol priceOf).entryPrice := by
  have hcond : ((priceOf marketSymbol).success
      && decide (0 < (priceOf marketSymbol).price)) = false := by
    rcases h with h | h
    · simp [h]
    · simp [not_lt.mpr h]
  refine ⟨?_, ?_⟩ <;>
    simp only [calculatePositionMetrics, hcond, Bool.false_eq_true, if_false] <;>
    norm_num [USD_PRECISION]

/-- Witness for c2_price_fallback: the SOL fixture account with the failing
price resolver, realized PnL 42.50. -/
theorem c2_price_fallback_witness :
    ((failingPriceOf "SOL").success = false ∨ (failingPriceOf "SOL").price ≤ 0)
      ∧ ((calculatePositionMetrics solAccount "SOL" failingPriceOf).pnl
            = (solAccount.realisedPnlUsd : ℚ) / 10 ^ 6
          ∧ (calculatePositionMetrics solAccount "SOL" failingPriceOf).markPrice
            = (calculatePositionMetrics solAccount "SOL" failingPriceOf).entryPrice) :=
  ⟨Or.inl rfl, c2_price_fallback solAccount "SOL" failingPriceOf (Or.inl rfl)⟩

/-- C5 amended: in the Jupiter-Quote-API pipeline file the resolver
short-circuits the stable-reference symbol USDC to the constant fixed-point
price 1000000 with success and no network call, whatever the network would
answer; the CoinGecko pipeline file instead issues a network request for USDC
like for any other supported symbol (see the counterexample). -/
theorem c5_usdc_constant (net : JupiterApi.QuoteNet) :
    JupiterApi.fetchCurrentPrice "USDC" net
      = ⟨⟨true, 1000000, "USDC"⟩, false⟩ := rfl

/-- C5 counterexample: the CoinGecko pipeline file fetches USDC over the
network (the instrumentation records the call) and returns the quoted price
999000 rather than the constant 1000000. -/
theorem c5_counterexample :
    (CoinGeckoApi.fetchCurrentPrice "USDC"
        (CoinGeckoApi.GeckoNet.response true (some (999 / 1000)))).networkCalled = true
      ∧ (CoinGeckoApi.fetchCurrentPrice "USDC"
          (CoinGeckoApi.GeckoNet.response true (some (999 / 1000)))).result.price = 999000
      ∧ (999000 : Int) ≠ 1000000 := by
  have h : CoinGeckoApi.fetchCurrentPrice "USDC"
      (CoinGeckoApi.GeckoNet.response true (some (999 / 1000)))
        = ⟨⟨true, 999000, "USDC"⟩, true⟩ := by
    simp only [CoinGeckoApi.fetchCurrentPrice, CoinGeckoApi.COINGECKO_COIN_IDS,
      CoinGeckoApi.mathRound, USDC_DECIMALS, String.reduceEq, reduceIte]
    norm_num [Int.floor_eq_iff]
  exact ⟨by rw [h], by rw [h], by decide⟩

/-- C6 amended: on success the CoinGecko pipeline file converts the quoted
decimal price to 6-decimal fixed point with round-half-up (floor of the
scaled value plus one half), while the Jupiter-Quote-API pipeline file
derives the fixed-point price as the floor (truncation) of the exact rational
outAmount * 10^tokenDecimals / inAmount, not its round-half-up. -/
theorem c6_fixed_point_conversion :
    (∀ (symbol coinId : String) (usd : ℚ),
        CoinGeckoApi.COINGECKO_COIN_IDS symbol = some coinId → 0 < usd →
          (CoinGeckoApi.fetchCurrentPrice symbol
              (CoinGeckoApi.GeckoNet.response true (some usd))).result
            = ⟨true, ⌊usd * 10 ^ 6 + 1 / 2⌋, symbol⟩)
      ∧ (∀ (symbol mint : String) (td : Nat) (inAmount outAmount : Int),
          JupiterApi.TOKEN_MINTS symbol = some mint → symbol ≠ "USDC" →
            JupiterApi.TOKEN_DECIMALS symbol = some td →
            0 ≤ outAmount → 0 < inAmount →
            (JupiterApi.fetchCurrentPrice symbol
                (JupiterApi.QuoteNet.response true (some inAmount) (some outAmount))).result
              = ⟨true, ⌊((outAmount : ℚ) * 10 ^ td) / (inAmount : ℚ)⌋, symbol⟩) := by
  constructor
  · intro symbol coinId usd hcoin husd
    simp only [CoinGeckoApi.fetchCurrentPrice, hcoin, CoinGeckoApi.mathRound, USDC_DECIMALS]
    rw [if_neg (by decide), if_neg (not_le.mpr husd)]
    norm_num
  · intro symbol mint td inAmount outAmount hmint husdc htd houtA hinA
    simp only [JupiterApi.fetchCurrentPrice, hmint, htd, Option.getD_some]
    rw [if_neg husdc, if_neg (by decide), if_neg hinA.ne']
    have hnum : (0 : Int) ≤ outAmount * ((10 ^ td : Nat) : Int) := by positivity
    rw [tdiv_eq_floor hnum hinA]
    norm_num

/-- Witness for c6_fixed_point_conversion: CoinGecko SOL at a quoted price of
1 USD, and the Jupiter quote of 3 lamports for 5 micro-USDC. -/
theorem c6_fixed_point_conversion_witness :
    (CoinGeckoApi.COINGECKO_COIN_IDS "SOL" = some "solana" ∧ (0 : ℚ) < 1
        ∧ (CoinGeckoApi.fetchCurrentPrice "SOL"
            (CoinGeckoApi.GeckoNet.response true (some 1))).result
          = ⟨true, ⌊(1 : ℚ) * 10 ^ 6 + 1 / 2⌋, "SOL"⟩)
      ∧ (JupiterApi.TOKEN_MINTS "SOL"
            = some "So11111111111111111111111111111111111111112"
          ∧ "SOL" ≠ "USDC" ∧ JupiterApi.TOKEN_DECIMALS "SOL" = some 9
          ∧ (0 : Int) ≤ 5 ∧ (0 : Int) < 3
          ∧ (JupiterApi.fetchCurrentPrice "SOL"
              (JupiterApi.QuoteNet.response true (some 3) (some 5))).result
            = ⟨true, ⌊((5 : Int) : ℚ) * 10 ^ 9 / ((3 : Int) : ℚ)⌋, "SOL"⟩) :=
  ⟨⟨rfl, by norm_num,
      c6_fixed_point_conversion.1 "SOL" "solana" 1 rfl (by norm_num)⟩,
    ⟨rfl, by decide, rfl, by decide, by decide,
      c6_fixed_point_conversion.2 "SOL" "So11111111111111111111111111111111111111112"
        9 3 5 rfl (by decide) rfl (by decide) (by decide)⟩⟩

/-- C6 counterexample: a successful Jupiter-Quote resolution (5 micro-USDC
for 3 lamports of SOL, an exact fixed-point value of 5 * 10^9 / 3) returns
the truncated price 1666666666, while round-half-up of the quoted decimal
price converted to 6 decimals is 1666666667. -/
theorem c6_counterexample :
    (JupiterApi.fetchCurrentPrice "SOL"
        (JupiterApi.QuoteNet.response true (some 3) (some 5))).result
      = ⟨true, 1666666666, "SOL"⟩
    ∧ (1666666666 : Int) ≠ ⌊((5 / 10 ^ 6 : ℚ) / (3 / 10 ^ 9)) * 10 ^ 6 + 1 / 2⌋ := by
  constructor
  · decide
  · norm_num [Int.floor_eq_iff]

/-- C7 amended: responses with a missing amount field or a zero inAmount are
treated as failure with zero price (and the CoinGecko file likewise rejects
missing and non-positive usd quotes); but a zero-valued outAmount string is
truthy and passes the presence check, so on such a response the Jupiter-Quote
resolver returns success together with a zero price (see the
counterexample). -/
theorem c7_zero_or_missing_fields :
    (∀ (symbol : String) (ok : Bool) (inAmount? outAmount? : Option Int),
        symbol ≠ "USDC" →
          (outAmount? = none ∨ inAmount? = none ∨ inAmount? = some 0) →
          (JupiterApi.fetchCurrentPrice symbol
              (JupiterApi.QuoteNet.response ok inAmount? outAmount?)).result
            = ⟨false, 0, symbol⟩)
      ∧ (∀ (symbol : String) (ok : Bool),
          (CoinGeckoApi.fetchCurrentPrice symbol
              (CoinGeckoApi.GeckoNet.response ok none)).result = ⟨false, 0, symbol⟩)
      ∧ (∀ (symbol : String) (ok : Bool) (usd : ℚ), usd ≤ 0 →
          (CoinGeckoApi.fetchCurrentPrice symbol
              (CoinGeckoApi.GeckoNet.response ok (some usd))).result = ⟨false, 0, symbol⟩)
      ∧ (∀ (symbol mint : String) (td : Nat) (inAmount : Int),
          JupiterApi.TOKEN_MINTS symbol = some mint → symbol ≠ "USDC" →
            JupiterApi.TOKEN_DECIMALS symbol = some td → inAmount ≠ 0 →
            (JupiterApi.fetchCurrentPrice symbol
                (JupiterApi.QuoteNet.response true (some inAmount) (some 0))).result
              = ⟨true, 0, symbol⟩) := by
  refine ⟨?_, ?_, ?_, ?_⟩
  · intro symbol ok inAmount? outAmount? husdc hzero
    cases hmint : JupiterApi.TOKEN_MINTS symbol with
    | none => simp [JupiterApi.fetchCurrentPrice, hmint]
    | some mint =>
      simp only [JupiterApi.fetchCurrentPrice, hmint]
      rw [if_neg husdc]
      cases ok with
      | false => simp
      | true =>
        rcases hzero with h | h | h <;> subst h
        · cases inAmount? <;> simp
        · cases outAmount? <;> simp
        · cases outAmount? <;> simp
  · intro symbol ok
    cases hcoin : CoinGeckoApi.COINGECKO_COIN_IDS symbol with
    | none => simp [CoinGeckoApi.fetchCurrentPrice, hcoin]
    | some coinId =>
      cases ok <;> simp [CoinGeckoApi.fetchCurrentPrice, hcoin]
  · intro symbol ok usd husd
    cases hcoin : CoinGeckoApi.COINGECKO_COIN_IDS symbol with
    | none => simp [CoinGeckoApi.fetchCurrentPrice, hcoin]
    | some coinId =>
      cases ok <;> simp [CoinGeckoApi.fetchCurrentPrice, hcoin, if_pos husd]
  · intro symbol mint td inAmount hmint husdc htd hinA
    simp only [JupiterApi.fetchCurrentPrice, hmint, htd, Option.getD_some]
    rw [if_neg husdc, if_neg (by decide), if_neg hinA]
    simp

/-- Witness for c7_zero_or_missing_fields: a SOL quote response with a
missing outAmount field, a CoinGecko response with usd equal to zero, and a
SOL quote response with a zero-valued outAmount. -/
theorem c7_zero_or_missing_fields_witness :
    ("SOL" ≠ "USDC"
        ∧ ((none : Option Int) = none ∨ (some (1 : Int)) = none
            ∨ (some (1 : Int)) = some 0)
        ∧ (JupiterApi.fetchCurrentPrice "SOL"
            (JupiterApi.QuoteNet.response true (some 1) none)).result = ⟨false, 0, "SOL"⟩)
      ∧ ((0 : ℚ) ≤ 0
        ∧ (CoinGeckoApi.fetchCurrentPrice "SOL"
            (CoinGeckoApi.GeckoNet.response true (some 0))).result = ⟨false, 0, "SOL"⟩)
      ∧ (JupiterApi.TOKEN_MINTS "SOL"
            = some "So11111111111111111111111111111111111111112"
          ∧ "SOL" ≠ "USDC" ∧ JupiterApi.TOKEN_DECIMALS "SOL" = some 9 ∧ (7 : Int) ≠ 0
          ∧ (JupiterApi.fetchCurrentPrice "SOL"
              (JupiterApi.QuoteNet.response true (some 7) (some 0))).result
            = ⟨true, 0, "SOL"⟩) :=
  ⟨⟨by decide, Or.inl rfl,
      c7_zero_or_missing_fields.1 "SOL" true (some 1) none (by decide) (Or.inl rfl)⟩,
    ⟨le_refl 0,
      c7_zero_or_missing_fields.2.2.1 "SOL" true 0 (le_refl 0)⟩,
    ⟨rfl, by decide, rfl, by decide,
      c7_zero_or_missing_fields.2.2.2 "SOL"
        "So11111111111111111111111111111111111111112" 9 7 rfl (by decide) rfl (by decide)⟩⟩

/-- C7 counterexample: a response whose outAmount is the zero-valued string
passes the presence check, and the Jupiter-Quote resolver returns success
together with a zero price instead of failure. -/
theorem c7_counterexample :
    (JupiterApi.fetchCurrentPrice "SOL"
        (JupiterApi.QuoteNet.response true (some 1000000000) (some 0))).result.success = true
      ∧ (JupiterApi.fetchCurrentPrice "SOL"
          (JupiterApi.QuoteNet.response true (some 1000000000) (some 0))).result.price = 0 := by
  decide

/-- Helper: the slot-write fold of the join model preserves the slot-list
length. -/
theorem runSchedule_fold_length {α γ : Type} (f : α → γ) (dflt : γ) (xs : List α)
    (order : List Nat) (slots : List γ) :
    (order.foldl (fun s i => s.set i ((xs[i]?).elim dflt f)) slots).length
      = slots.length := by
  induction order generalizing slots with
  | nil => rfl
  | cons i rest ih => rw [List.foldl_cons, ih, List.length_set]

/-- Helper: after the slot-write fold, a slot holds the result of its task
if its index was completed, and its previous content otherwise. -/
theorem runSchedule_fold_getElem {α γ : Type} (f : α → γ) (dflt : γ) (xs : List α)
    (order : List Nat) (slots : List γ) (hlen : slots.length = xs.length)
    (j : Nat) (hj : j < xs.length) :
    (order.foldl (fun s i => s.set i ((xs[i]?).elim dflt f)) slots)[j]?
      = if j ∈ order then some ((xs[j]?).elim dflt f) else slots[j]? := by
  induction order generalizing slots with
  | nil => simp
  | cons i rest ih =>
    rw [List.foldl_cons]
    have hlen2 : (slots.set i ((xs[i]?).elim dflt f)).length = xs.length := by
      rw [List.length_set, hlen]
    rw [ih _ hlen2]
    by_cases hjr : j ∈ rest
    · simp [hjr, List.mem_cons]
    · by_cases hij : j = i
      · subst hij
        have hjs : j < slots.length := by rw [hlen]; exact hj
        simp [hjr, List.getElem?_set_self hjs, List.mem_cons]
      · rw [if_neg hjr, List.getElem?_set_ne (fun h => hij h.symm),
          if_neg (by simp [List.mem_cons, hij, hjr])]

/-- Helper: when every input index appears in the completion order, the
all-complete join returns exactly the in-order map of the task function. -/
theorem runSchedule_eq_map {α γ : Type} (f : α → γ) (dflt : γ) (xs : List α)
    (order : List Nat) (hcov : ∀ j, j < xs.length → j ∈ order) :
    runSchedule f dflt xs order = xs.map f := by
  apply List.ext_getElem?
  intro j
  by_cases hj : j < xs.length
  · rw [runSchedule, runSchedule_fold_getElem f dflt xs order _ (by simp) j hj,
      if_pos (hcov j hj), List.getElem?_map, List.getElem?_eq_getElem hj]
    simp
  · have h1 : (runSchedule f dflt xs order).length ≤ j := by
      rw [runSchedule, runSchedule_fold_length]
      simpa using le_of_not_lt hj
    rw [List.getElem?_eq_none h1,
      List.getElem?_eq_none (by simpa using le_of_not_lt hj)]

/-- Helper: with full completion coverage, the aggregator on a successful
fetch equals the completion-order-independent composition of its stages. -/
theorem getJupiterPositions_eq (decode : List Nat → Except String JupiterPositionAccount)
    (priceOf : String → PriceFetchResult) (rawAccounts : List RawAccountInfo)
    (order : List Nat)
    (hcov : ∀ j, j < (filterOpenPositions (decodePositionAccounts decode rawAccounts)).length
      → j ∈ order) :
    getJupiterPositions decode priceOf (Except.ok rawAccounts) order
      = (filterOpenPositions (decodePositionAccounts decode rawAccounts)).filterMap
          (processJupiterPosition priceOf) := by
  simp only [getJupiterPositions]
  by_cases hraw : rawAccounts.length = 0
  · rw [if_pos hraw]
    rw [List.length_eq_zero.mp hraw]
    rfl
  · rw [if_neg hraw]
    by_cases hopen : (filterOpenPositions (decodePositionAccounts decode rawAccounts)).length = 0
    · rw [if_pos hopen, List.length_eq_zero.mp hopen]
      rfl
    · rw [if_neg hopen, runSchedule_eq_map _ _ _ _ hcov, List.filterMap_map]
      rfl

/-- Helper: the normalizer returns null for any account classified NONE. -/
theorem processJupiterPosition_none_side (priceOf : String → PriceFetchResult)
    (positionData : DecodedPosition)
    (hnone : JupiterSideHelpers.toString positionData.account.side = Direction.NONE) :
    processJupiterPosition priceOf positionData = none := by
  cases hfind : JUPITER_MARKETS.find?
      (fun market => decide (market.custody = positionData.account.custody)) with
  | none => simp [processJupiterPosition, hfind]
  | some marketInfo => simp [processJupiterPosition, hfind, hnone]

/-- C10: when every task index is covered by the completion order, the
aggregator output equals the in-input-order filterMap of normalization over
the filtered decoded accounts: the all-complete join places each result at
its input index and the null-filter preserves order, so the output order is
fixed by the input order, not by completion order. -/
theorem c10_order_preserved (decode : List Nat → Except String JupiterPositionAccount)
    (priceOf : String → PriceFetchResult) (rawAccounts : List RawAccountInfo)
    (order : List Nat)
    (hcov : ∀ j, j < (filterOpenPositions (decodePositionAccounts decode rawAccounts)).length
      → j ∈ order) :
    getJupiterPositions decode priceOf (Except.ok rawAccounts) order
      = (filterOpenPositions (decodePositionAccounts decode rawAccounts)).filterMap
          (processJupiterPosition priceOf) :=
  getJupiterPositions_eq decode priceOf rawAccounts order hcov

/-- Witness for c10_order_preserved: two open SOL accounts completing in
reversed order still produce the input-order output. -/
theorem c10_order_preserved_witness :
    (∀ j, j < (filterOpenPositions (decodePositionAccounts constDecode twoRawAccounts)).length
        → j ∈ [1, 0])
      ∧ getJupiterPositions constDecode failingPriceOf (Except.ok twoRawAccounts) [1, 0]
        = (filterOpenPositions (decodePositionAccounts constDecode twoRawAccounts)).filterMap
            (processJupiterPosition failingPriceOf) :=
  ⟨by decide,
    c10_order_preserved constDecode failingPriceOf twoRawAccounts [1, 0] (by decide)⟩

/-- C8 amended: the Jupiter aggregator catches a throwing fetch step, logs
it, and returns an empty list, so no exception escapes it; the Drift
position fetcher instead logs and rethrows, so its top-level errors do
propagate to the caller (see the counterexample). -/
theorem c8_top_level_error_handling :
    (∀ (decode : List Nat → Except String JupiterPositionAccount)
        (priceOf : String → PriceFetchResult) (msg : String) (order : List Nat),
        getJupiterPositions decode priceOf (Except.error msg) order = [])
      ∧ (∀ (isEmptyPosition : PerpPosition → Bool) (msg : String),
          getDriftPositions isEmptyPosition (DriftFetchOutcome.throws msg)
            = Except.error msg) :=
  ⟨fun _ _ _ _ => rfl, fun _ _ => rfl⟩

/-- C8 counterexample: when the Drift fetch step throws, getDriftPositions
rethrows the error instead of converting it to an empty list, so the
exception propagates to the caller. -/
theorem c8_counterexample :
    getDriftPositions (fun _ => true) (DriftFetchOutcome.throws "network unreachable")
        = Except.error "network unreachable"
      ∧ getDriftPositions (fun _ => true) (DriftFetchOutcome.throws "network unreachable")
        ≠ Except.ok [] :=
  ⟨rfl, fun h => Except.noConfusion h⟩

/-- C9: the side classifier is total over all key encodings and yields LONG
exactly when the long key is present (with precedence), SHORT exactly when
short is present without long, and NONE in every other case; a NONE
classification makes the normalizer drop the position by returning null
rather than raising an error. -/
theorem c9_side_classifier :
    (∀ side : JupiterSide,
        (JupiterSideHelpers.toString side = Direction.LONG ↔ side.hasLong = true)
          ∧ (JupiterSideHelpers.toString side = Direction.SHORT
              ↔ (side.hasLong = false ∧ side.hasShort = true))
          ∧ (JupiterSideHelpers.toString side = Direction.NONE
              ↔ (side.hasLong = false ∧ side.hasShort = false)))
      ∧ (∀ (priceOf : String → PriceFetchResult) (positionData : DecodedPosition),
          JupiterSideHelpers.toString positionData.account.side = Direction.NONE →
            processJupiterPosition priceOf positionData = none) := by
  constructor
  · intro side
    obtain ⟨l, s, n⟩ := side
    cases l <;> cases s <;> simp [JupiterSideHelpers.toString]
  · exact fun priceOf positionData hnone =>
      processJupiterPosition_none_side priceOf positionData hnone

/-- Witness for c9_side_classifier: the none-side fixture account is
classified NONE and dropped by the normalizer. -/
theorem c9_side_classifier_witness :
    JupiterSideHelpers.toString noneSideAccount.side = Direction.NONE
      ∧ processJupiterPosition failingPriceOf ⟨"pkNone", noneSideAccount⟩ = none :=
  ⟨by decide,
    c9_side_classifier.2 failingPriceOf ⟨"pkNone", noneSideAccount⟩ (by decide)⟩

/-- Helper: toFixed(4) at the value 5 is exact. -/
theorem toFixed4_five : toFixed4 5 = 5 := by
  have h : (⌊(5 : ℚ) * 10 ^ 4 + 1 / 2⌋ : Int) = 50000 := by
    rw [Int.floor_eq_iff]
    norm_num
  rw [toFixed4, h]
  norm_num

/-- Helper: toFixed(4) at the value 0 is exact. -/
theorem toFixed4_zero : toFixed4 0 = 0 := by
  have h : (⌊(0 : ℚ) * 10 ^ 4 + 1 / 2⌋ : Int) = 0 := by
    rw [Int.floor_eq_iff]
    norm_num
  rw [toFixed4, h]
  norm_num

/-- Helper: metrics of the SOL fixture account under the failing resolver. -/
theorem metrics_solAccount :
    calculatePositionMetrics solAccount "SOL" failingPriceOf
      = ⟨1000, 200, 100, 10, 100, 85 / 2, 5⟩ := by
  norm_num [calculatePositionMetrics, USD_PRECISION, failingPriceOf, solAccount]

/-- Helper: metrics of the zero-size fixture account under the failing
resolver. -/
theorem metrics_zeroSizeAccount :
    calculatePositionMetrics zeroSizeAccount "SOL" failingPriceOf
      = ⟨0, 200, 100, 0, 100, 85 / 2, 0⟩ := by
  norm_num [calculatePositionMetrics, USD_PRECISION, failingPriceOf, zeroSizeAccount,
    solAccount]

/-- Helper: normalizing the SOL fixture account yields the fallback
position. -/
theorem process_solAccount (pk : String) :
    processJupiterPosition failingPriceOf ⟨pk, solAccount⟩ = some solPositionFallback := by
  have hfind : JUPITER_MARKETS.find?
      (fun market => decide (market.custody = solAccount.custody))
        = some ⟨"SOL", solCustody, 0⟩ := by decide
  have hside : JupiterSideHelpers.toString solAccount.side = Direction.LONG := by decide
  have hcust : solAccount.custody = solCustody := rfl
  simp only [processJupiterPosition, hfind, hside, metrics_solAccount, toFixed4_five,
    solPositionFallback]
  simp [hcust]

/-- Helper: normalizing the zero-size fixture account also yields a
position. -/
theorem process_zeroSizeAccount (pk : String) :
    processJupiterPosition failingPriceOf ⟨pk, zeroSizeAccount⟩
      = some zeroSizePositionFallback := by
  have hfind : JUPITER_MARKETS.find?
      (fun market => decide (market.custody = zeroSizeAccount.custody))
        = some ⟨"SOL", solCustody, 0⟩ := by decide
  have hside : JupiterSideHelpers.toString zeroSizeAccount.side = Direction.LONG := by decide
  have hcust : zeroSizeAccount.custody = solCustody := rfl
  simp only [processJupiterPosition, hfind, hside, metrics_zeroSizeAccount, toFixed4_zero,
    zeroSizePositionFallback]
  simp [hcust]

/-- Helper: the single-account fixture pipeline evaluates to the fallback
SOL position. -/
theorem pipeline_one_eval :
    getJupiterPositions constDecode failingPriceOf (Except.ok oneRawAccount) [0]
      = [solPositionFallback] := by
  rw [getJupiterPositions_eq constDecode failingPriceOf oneRawAccount [0] (by decide)]
  have hdec : filterOpenPositions (decodePositionAccounts constDecode oneRawAccount)
      = [⟨"pk0", solAccount⟩] := by decide
  rw [hdec]
  simp [process_solAccount]

/-- C4 amended: every position the aggregator emits comes from a decoded
account with strictly positive USD size and a side other than none (the
pre-filter guarantees both), and the normalization step re-validates the
side condition by returning null for a none-side account; it does not
re-validate the positive-size condition (see the counterexample). -/
theorem c4_open_position_provenance
    (decode : List Nat → Except String JupiterPositionAccount)
    (priceOf : String → PriceFetchResult) (rawAccounts : List RawAccountInfo)
    (order : List Nat)
    (hcov : ∀ j, j < (filterOpenPositions (decodePositionAccounts decode rawAccounts)).length
      → j ∈ order)
    (q : Position)
    (hq : q ∈ getJupiterPositions decode priceOf (Except.ok rawAccounts) order) :
    (∃ d ∈ decodePositionAccounts decode rawAccounts,
        0 < d.account.sizeUsd
          ∧ JupiterSideHelpers.toString d.account.side ≠ Direction.NONE
          ∧ processJupiterPosition priceOf d = some q)
      ∧ (∀ positionData : DecodedPosition,
          JupiterSideHelpers.toString positionData.account.side = Direction.NONE →
            processJupiterPosition priceOf positionData = none) := by
  constructor
  · rw [getJupiterPositions_eq decode priceOf rawAccounts order hcov] at hq
    rcases List.mem_filterMap.mp hq with ⟨d, hd, hprocess⟩
    simp only [filterOpenPositions] at hd
    rcases List.mem_filter.mp hd with ⟨hmem, hcond⟩
    rw [Bool.and_eq_true, decide_eq_true_iff, decide_eq_true_iff] at hcond
    exact ⟨d, hmem, hcond.1, hcond.2, hprocess⟩
  · exact fun positionData hnone =>
      processJupiterPosition_none_side priceOf positionData hnone

/-- Witness for c4_open_position_provenance: the single-account fixture
pipeline emits the fallback SOL position, which traces back to the SOL
account. -/
theorem c4_open_position_provenance_witness :
    (∀ j, j < (filterOpenPositions (decodePositionAccounts constDecode oneRawAccount)).length
        → j ∈ [0])
      ∧ solPositionFallback ∈ getJupiterPositions constDecode failingPriceOf
          (Except.ok oneRawAccount) [0]
      ∧ ((∃ d ∈ decodePositionAccounts constDecode oneRawAccount,
            0 < d.account.sizeUsd
              ∧ JupiterSideHelpers.toString d.account.side ≠ Direction.NONE
              ∧ processJupiterPosition failingPriceOf d = some solPositionFallback)
          ∧ (∀ positionData : DecodedPosition,
              JupiterSideHelpers.toString positionData.account.side = Direction.NONE →
                processJupiterPosition failingPriceOf positionData = none)) :=
  ⟨by decide, by rw [pipeline_one_eval]; exact List.mem_singleton.mpr rfl,
    c4_open_position_provenance constDecode failingPriceOf oneRawAccount [0] (by decide)
      solPositionFallback (by rw [pipeline_one_eval]; exact List.mem_singleton.mpr rfl)⟩

/-- C4 counterexample: handed a zero-size LONG account directly, the
normalization step does not re-validate the positive-size condition: it
produces a position instead of returning null. -/
theorem c4_counterexample :
    zeroSizeAccount.sizeUsd = 0
      ∧ processJupiterPosition failingPriceOf ⟨"pkZero", zeroSizeAccount⟩
        = some zeroSizePositionFallback
      ∧ processJupiterPosition failingPriceOf ⟨"pkZero", zeroSizeAccount⟩ ≠ none := by
  refine ⟨rfl, process_zeroSizeAccount "pkZero", ?_⟩
  rw [process_zeroSizeAccount "pkZero"]
  exact fun h => Option.noConfusion h

end SolanaPerp
